import Mathlib

/-!
Verification of the rolling-window day counter in `japan_days_counter.py`.

The core function `days_in_rolling_window(trips, reference_date)` iterates
over a list of `(entry, exit)` calendar-date pairs, skips pairs lying
entirely outside the window `[reference_date - 365 days, reference_date]`,
and otherwise adds `(min(exit, reference_date) - max(entry, window_start)).days + 1`
to a running total.  It returns the total together with the window start.

Python `datetime.date` values are embedded as their proleptic Gregorian
ordinals (integers), which is exactly the representation CPython uses for
date subtraction and `timedelta` arithmetic: `d2 - d1` is the difference of
ordinals and `d - timedelta(days = n)` subtracts `n` from the ordinal.
The `Date` structure and `toOrdinal` below reproduce CPython's
`date.toordinal` so that concrete calendar dates from the specification can
be evaluated.
-/

namespace JapanDaysCounter

/-- Calendar date (year, month, day), mirroring Python `datetime.date`. -/
structure Date where
  year : Nat
  month : Nat
  day : Nat
deriving DecidableEq, Repr

/-- Gregorian leap-year test, as in CPython `datetime._is_leap`. -/
def isLeapYear (y : Nat) : Bool :=
  y % 4 == 0 && (y % 100 != 0 || y % 400 == 0)

/-- Number of days in a month, as in CPython `datetime._days_in_month`. -/
def daysInMonth (y m : Nat) : Nat :=
  if m = 2 then (if isLeapYear y then 29 else 28)
  else if m = 4 ∨ m = 6 ∨ m = 9 ∨ m = 11 then 30
  else 31

/-- Days before January 1st of year `y`, as in CPython `datetime._days_before_year`. -/
def daysBeforeYear (y : Nat) : Nat :=
  (y - 1) * 365 + (y - 1) / 4 - (y - 1) / 100 + (y - 1) / 400

/-- Days in year `y` preceding the first of month `m`,
as in CPython `datetime._days_before_month`. -/
def daysBeforeMonth (y m : Nat) : Nat :=
  (List.range (m - 1)).foldl (fun acc i => acc + daysInMonth y (i + 1)) 0

/-- Proleptic Gregorian ordinal of a date (0001-01-01 has ordinal 1),
as in CPython `date.toordinal`. -/
def toOrdinal (d : Date) : Int :=
  ((daysBeforeYear d.year + daysBeforeMonth d.year d.month + d.day : Nat) : Int)

/-- Embedding of `days_in_rolling_window` (src/japan_days_counter.py, lines 20-35),
with the reference date passed explicitly (the Python default
`datetime.today().date()` is resolved by the caller).  Dates are ordinals;
`(overlap_end - overlap_start).days` is ordinal subtraction. -/
def days_in_rolling_window (trips : List (Int × Int)) (reference_date : Int) :
    Int × Int :=
  let start_window := reference_date - 365
  let days_count := trips.foldl
    (fun days_count trip =>
      let entry := trip.1
      let exit := trip.2
      if exit < start_window ∨ entry > reference_date then
        days_count
      else
        let overlap_start := max entry start_window
        let overlap_end := min exit reference_date
        days_count + (overlap_end - overlap_start) + 1)
    0
  (days_count, start_window)

/-- The contribution of one `(entry, exit)` pair to the running total of
`days_in_rolling_window`: 0 when the skip test fires, otherwise the
inclusive overlap length.  Extracted from the loop body (lines 26-33). -/
def pairContribution (reference_date : Int) (t : Int × Int) : Int :=
  if t.2 < reference_date - 365 ∨ t.1 > reference_date then 0
  else min t.2 reference_date - max t.1 (reference_date - 365) + 1

/-- Per-interval contribution as worded in the specification: 0 when
`exit < window_start` or `entry > reference_date`, otherwise
`(min(exit, reference_date) - max(entry, window_start)).days + 1`
with `window_start = reference_date - 365 days`. -/
def specContribution (reference_date entry exit : Int) : Int :=
  let window_start := reference_date - 365
  if exit < window_start ∨ entry > reference_date then 0
  else (min exit reference_date - max entry window_start) + 1

/-- `MAX_DAYS = 180` (src/japan_days_counter.py, line 8). -/
def MAX_DAYS : Int := 180

/-- The caller-side derived quantity `days_remaining = MAX_DAYS - days_used`
(src/japan_days_counter.py, line 138; the same expression is interpolated at
line 53 of `create_visualization`). -/
def days_remaining (trips : List (Int × Int)) (reference_date : Int) : Int :=
  MAX_DAYS - (days_in_rolling_window trips reference_date).1

theorem foldl_body_eq_sum (ref : Int) (l : List (Int × Int)) (a : Int) :
    l.foldl
      (fun days_count trip =>
        let entry := trip.1
        let exit := trip.2
        if exit < ref - 365 ∨ entry > ref then
          days_count
        else
          let overlap_start := max entry (ref - 365)
          let overlap_end := min exit ref
          days_count + (overlap_end - overlap_start) + 1)
      a
    = a + (l.map (pairContribution ref)).sum := by
  induction l generalizing a with
  | nil => simp
  | cons h t ih =>
    simp only [List.foldl_cons, List.map_cons, List.sum_cons, ih, pairContribution]
    by_cases hc : h.2 < ref - 365 ∨ h.1 > ref
    · simp only [if_pos hc]
      ring
    · simp only [if_neg hc]
      ring

theorem days_in_rolling_window_eq_sum (trips : List (Int × Int)) (ref : Int) :
    days_in_rolling_window trips ref
      = ((trips.map (pairContribution ref)).sum, ref - 365) := by
  unfold days_in_rolling_window
  simp only []
  rw [foldl_body_eq_sum]
  simp

theorem pairContribution_nonneg (ref : Int) (t : Int × Int) (h : t.1 ≤ t.2) :
    0 ≤ pairContribution ref t := by
  unfold pairContribution
  by_cases hc : t.2 < ref - 365 ∨ t.1 > ref
  · simp [hc]
  · simp only [if_neg hc]
    push_neg at hc
    obtain ⟨h1, h2⟩ := hc
    simp only [min_def, max_def]
    split_ifs <;> omega

theorem singleton_days (e x ref : Int) :
    (days_in_rolling_window [(e, x)] ref).1 = pairContribution ref (e, x) := by
  rw [days_in_rolling_window_eq_sum]
  simp

/-- C1: for every list of intervals each satisfying entry ≤ exit and every
reference date, `days_used` equals the sum over the intervals of the
specification's per-interval formula (0 outside the window, inclusive
overlap length otherwise). -/
theorem c1_days_used_eq_spec_sum (trips : List (Int × Int)) (reference_date : Int)
    (hvalid : ∀ t ∈ trips, t.1 ≤ t.2) :
    (days_in_rolling_window trips reference_date).1
      = (trips.map (fun t => specContribution reference_date t.1 t.2)).sum := by
  rw [days_in_rolling_window_eq_sum]
  rfl

theorem c1_witness :
    (∀ t ∈ [((0 : Int), (10 : Int)), (-400, -370), (900, 905)], t.1 ≤ t.2)
    ∧ (days_in_rolling_window [((0 : Int), 10), (-400, -370), (900, 905)] 1000).1
        = ([((0 : Int), (10 : Int)), (-400, -370), (900, 905)].map
            (fun t => specContribution 1000 t.1 t.2)).sum :=
  ⟨by decide, c1_days_used_eq_spec_sum [(0, 10), (-400, -370), (900, 905)] 1000 (by decide)⟩

/-- C2: the code evaluated at the claim's failing input.  The claim says the
reversed interval (2023-05-10, 2023-05-01) raises `InvalidInterval`; the code
contains no validation, proceeds through the overlap formula, and returns
`days_used = -8` computed from the reversed interval. -/
theorem c2_reversed_interval_returns :
    days_in_rolling_window
        [(toOrdinal ⟨2023, 5, 10⟩, toOrdinal ⟨2023, 5, 1⟩)]
        (toOrdinal ⟨2024, 1, 1⟩)
      = (-8, toOrdinal ⟨2023, 1, 1⟩) := by
  decide

/-- C3 counterexample: with reference date 2024-01-01 the returned window
start is not 2023-01-02, and the interval (2022-12-20, 2023-01-10) does not
contribute 9 days. -/
theorem c3_counterexample :
    ¬ ((days_in_rolling_window [] (toOrdinal ⟨2024, 1, 1⟩)).2
          = toOrdinal ⟨2023, 1, 2⟩
       ∧ (days_in_rolling_window
            [(toOrdinal ⟨2022, 12, 20⟩, toOrdinal ⟨2023, 1, 10⟩)]
            (toOrdinal ⟨2024, 1, 1⟩)).1 = 9) := by
  decide

/-- C3 amended: with reference_date = 2024-01-01 the counter returns
window_start = 2023-01-01, and the per-interval contributions are:
(2023-06-01, 2023-06-30) contributes 30 days, (2022-01-01, 2022-01-10)
contributes 0 days, and (2022-12-20, 2023-01-10) contributes 10 days
(overlap [2023-01-01, 2023-01-10]). -/
theorem c3_amended_scenario :
    (days_in_rolling_window [] (toOrdinal ⟨2024, 1, 1⟩)).2 = toOrdinal ⟨2023, 1, 1⟩
    ∧ (days_in_rolling_window
         [(toOrdinal ⟨2023, 6, 1⟩, toOrdinal ⟨2023, 6, 30⟩)]
         (toOrdinal ⟨2024, 1, 1⟩)).1 = 30
    ∧ (days_in_rolling_window
         [(toOrdinal ⟨2022, 1, 1⟩, toOrdinal ⟨2022, 1, 10⟩)]
         (toOrdinal ⟨2024, 1, 1⟩)).1 = 0
    ∧ (days_in_rolling_window
         [(toOrdinal ⟨2022, 12, 20⟩, toOrdinal ⟨2023, 1, 10⟩)]
         (toOrdinal ⟨2024, 1, 1⟩)).1 = 10 := by
  decide

/-- C4: the empty interval list yields days_used = 0 and
window_start = reference_date − 365; for every input the returned window
start is exactly reference_date − 365 calendar days; concretely, for the
leap-year-straddling reference date 2024-03-01 the window start is
2023-03-02 (365 days earlier, not one calendar year earlier). -/
theorem c4_empty_and_window_start (trips : List (Int × Int)) (reference_date : Int) :
    days_in_rolling_window [] reference_date = (0, reference_date - 365)
    ∧ (days_in_rolling_window trips reference_date).2 = reference_date - 365
    ∧ (days_in_rolling_window [] (toOrdinal ⟨2024, 3, 1⟩)).2 = toOrdinal ⟨2023, 3, 2⟩ :=
  ⟨rfl, rfl, by decide⟩

/-- C5: for every list of valid intervals, every permutation of it and every
reference date, days_used is unchanged by the permutation. -/
theorem c5_perm_invariant (trips trips' : List (Int × Int)) (reference_date : Int)
    (hvalid : ∀ t ∈ trips, t.1 ≤ t.2) (hperm : trips.Perm trips') :
    (days_in_rolling_window trips reference_date).1
      = (days_in_rolling_window trips' reference_date).1 := by
  rw [days_in_rolling_window_eq_sum, days_in_rolling_window_eq_sum]
  exact (hperm.map (pairContribution reference_date)).sum_eq

theorem c5_witness :
    (∀ t ∈ [((1 : Int), (2 : Int)), (3, 4)], t.1 ≤ t.2)
    ∧ List.Perm [((1 : Int), (2 : Int)), (3, 4)] [(3, 4), (1, 2)]
    ∧ (days_in_rolling_window [((1 : Int), 2), (3, 4)] 10).1
        = (days_in_rolling_window [((3 : Int), 4), (1, 2)] 10).1 :=
  ⟨by decide, by decide, c5_perm_invariant [(1, 2), (3, 4)] [(3, 4), (1, 2)] 10
    (by decide) (by decide)⟩

/-- C6: an interval with exit = window_start (entry ≤ exit) contributes 1;
an interval with entry = reference_date (entry ≤ exit) contributes 1; a
single-day interval with entry = exit inside the window contributes 1. -/
theorem c6_boundary_contributions (entry exit reference_date : Int) :
    (entry ≤ exit → exit = reference_date - 365 →
      (days_in_rolling_window [(entry, exit)] reference_date).1 = 1)
    ∧ (entry ≤ exit → entry = reference_date →
      (days_in_rolling_window [(entry, exit)] reference_date).1 = 1)
    ∧ (entry = exit → reference_date - 365 ≤ entry → entry ≤ reference_date →
      (days_in_rolling_window [(entry, exit)] reference_date).1 = 1) := by
  refine ⟨?_, ?_, ?_⟩
  · intro h1 h2
    rw [singleton_days]
    unfold pairContribution
    simp only [min_def, max_def]
    split_ifs <;> omega
  · intro h1 h2
    rw [singleton_days]
    unfold pairContribution
    simp only [min_def, max_def]
    split_ifs <;> omega
  · intro h1 h2 h3
    rw [singleton_days]
    unfold pairContribution
    simp only [min_def, max_def]
    split_ifs <;> omega

theorem c6_witness :
    (days_in_rolling_window [((600 : Int), 635)] 1000).1 = 1
    ∧ (days_in_rolling_window [((1000 : Int), 1005)] 1000).1 = 1
    ∧ (days_in_rolling_window [((700 : Int), 700)] 1000).1 = 1 :=
  ⟨(c6_boundary_contributions 600 635 1000).1 (by decide) (by decide),
   (c6_boundary_contributions 1000 1005 1000).2.1 (by decide) (by decide),
   (c6_boundary_contributions 700 700 1000).2.2 (by decide) (by decide) (by decide)⟩

/-- C7: days_used is additive over list concatenation, and consequently a
duplicated list is counted twice (overlapping inputs are double-counted,
not deduplicated). -/
theorem c7_additive_append (A B : List (Int × Int)) (reference_date : Int)
    (hA : ∀ t ∈ A, t.1 ≤ t.2) (hB : ∀ t ∈ B, t.1 ≤ t.2) :
    (days_in_rolling_window (A ++ B) reference_date).1
      = (days_in_rolling_window A reference_date).1
        + (days_in_rolling_window B reference_date).1
    ∧ (days_in_rolling_window (A ++ A) reference_date).1
      = 2 * (days_in_rolling_window A reference_date).1 := by
  constructor
  · simp only [days_in_rolling_window_eq_sum, List.map_append, List.sum_append]
  · simp only [days_in_rolling_window_eq_sum, List.map_append, List.sum_append]
    ring

theorem c7_witness :
    (days_in_rolling_window ([((900 : Int), 905)] ++ [(800, 810)]) 1000).1
      = (days_in_rolling_window [((900 : Int), 905)] 1000).1
        + (days_in_rolling_window [((800 : Int), 810)] 1000).1
    ∧ (days_in_rolling_window ([((900 : Int), 905)] ++ [(900, 905)]) 1000).1
      = 2 * (days_in_rolling_window [((900 : Int), 905)] 1000).1 :=
  c7_additive_append [(900, 905)] [(800, 810)] 1000 (by decide) (by decide)

/-- C8: the caller-side derived quantity is days_remaining = 180 − days_used,
with no clamping: it is negative whenever days_used > 180. -/
theorem c8_days_remaining_unclamped (trips : List (Int × Int)) (reference_date : Int) :
    days_remaining trips reference_date
      = 180 - (days_in_rolling_window trips reference_date).1
    ∧ ((days_in_rolling_window trips reference_date).1 > 180 →
        days_remaining trips reference_date < 0) := by
  unfold days_remaining MAX_DAYS
  exact ⟨rfl, by omega⟩

theorem c8_witness :
    days_remaining [((700 : Int), 950)] 1000
      = 180 - (days_in_rolling_window [((700 : Int), 950)] 1000).1
    ∧ days_remaining [((700 : Int), 950)] 1000 < 0 :=
  ⟨(c8_days_remaining_unclamped [(700, 950)] 1000).1,
   (c8_days_remaining_unclamped [(700, 950)] 1000).2 (by decide)⟩

/-- C9: for every list of intervals each satisfying entry ≤ exit and every
reference date, the returned days_used is ≥ 0. -/
theorem c9_days_used_nonneg (trips : List (Int × Int)) (reference_date : Int)
    (hvalid : ∀ t ∈ trips, t.1 ≤ t.2) :
    0 ≤ (days_in_rolling_window trips reference_date).1 := by
  rw [days_in_rolling_window_eq_sum]
  refine List.sum_nonneg ?_
  intro x hx
  simp only [List.mem_map] at hx
  obtain ⟨t, ht, rfl⟩ := hx
  exact pairContribution_nonneg reference_date t (hvalid t ht)

theorem c9_witness :
    (∀ t ∈ [((900 : Int), (905 : Int)), (0, 10)], t.1 ≤ t.2)
    ∧ 0 ≤ (days_in_rolling_window [((900 : Int), 905), (0, 10)] 1000).1 :=
  ⟨by decide, c9_days_used_nonneg [(900, 905), (0, 10)] 1000 (by decide)⟩

/-- C10: the counter is total over all date-pair lists, reversed pairs
included: the result is always the pair of the per-pair contribution sum and
reference_date − 365; a reversed pair entirely outside the window contributes
0, and a reversed pair overlapping the window contributes its (possibly
negative) overlap length plus 1. -/
theorem c10_total_including_reversed (trips : List (Int × Int))
    (entry exit reference_date : Int) :
    days_in_rolling_window trips reference_date
      = ((trips.map (pairContribution reference_date)).sum, reference_date - 365)
    ∧ (entry > exit →
        (exit < reference_date - 365 ∨ entry > reference_date) →
        (days_in_rolling_window [(entry, exit)] reference_date).1 = 0)
    ∧ (entry > exit →
        ¬(exit < reference_date - 365 ∨ entry > reference_date) →
        (days_in_rolling_window [(entry, exit)] reference_date).1
          = (min exit reference_date - max entry (reference_date - 365)) + 1) := by
  refine ⟨days_in_rolling_window_eq_sum trips reference_date, ?_, ?_⟩
  · intro _ hout
    rw [singleton_days]
    unfold pairContribution
    rw [if_pos hout]
  · intro _ hin
    rw [singleton_days]
    unfold pairContribution
    rw [if_neg hin]

theorem c10_witness :
    (days_in_rolling_window [((10 : Int), 5)] 1000).1 = 0
    ∧ (days_in_rolling_window [((10 : Int), 5)] 20).1 = -4 := by
  refine ⟨(c10_total_including_reversed [(10, 5)] 10 5 1000).2.1 (by decide) (by decide), ?_⟩
  rw [(c10_total_including_reversed [(10, 5)] 10 5 20).2.2 (by decide) (by decide)]
  decide

end JapanDaysCounter
